import Mathlib

/-!
The chat relay of `server.mjs`.

A shallow embedding of `src/server.mjs`: the rate-limit middleware, the
`BLOCKED` safety filter, the `/health` route and the `/api/chat` handler.

JavaScript strings are sequences of UTF-16 code units, modelled as `List Nat`.
-/

namespace Server

/-- A JavaScript string: its UTF-16 code units. -/
abbrev JSString := List Nat

/-- Code units of a source literal (all literals of the program are ASCII). -/
def lit (s : String) : JSString := s.toList.map Char.toNat

/-! ## Regular expressions of `BLOCKED` (all carry the `i` flag, none the `u` flag) -/

/-- The pattern constructs that occur in `BLOCKED`. -/
inductive Regex where
  /-- matches nothing (only arises as a derivative) -/
  | nothing : Regex
  /-- matches the empty string -/
  | empty : Regex
  /-- a literal pattern character, compared case-insensitively -/
  | char (c : Nat) : Regex
  /-- the class escape `\s` -/
  | space : Regex
  /-- concatenation -/
  | seq (a b : Regex) : Regex
  /-- alternation `a|b` -/
  | alt (a b : Regex) : Regex
  /-- repetition `a*` -/
  | star (a : Regex) : Regex
  deriving Repr, DecidableEq

namespace Regex

/-- `a+` is `aa*`. -/
def plus (a : Regex) : Regex := seq a (star a)

/-- `a?` is `a|ε`. -/
def opt (a : Regex) : Regex := alt a empty

/-- A literal word: the concatenation of its characters. -/
def word : List Nat → Regex
  | [] => empty
  | [c] => char c
  | c :: cs => seq (char c) (word cs)

end Regex

/-- Canonicalize of the ECMAScript pattern semantics for an `i` flag without `u`:
ASCII lower-case letters go to upper case.  For a code unit of 128 or above the
specification returns a code unit that is again 128 or above (an upper-case
mapping into ASCII is discarded), so against the ASCII pattern characters of
`BLOCKED` the outcome is the same as leaving it unchanged. -/
def canonicalize (ch : Nat) : Nat :=
  if 97 ≤ ch ∧ ch ≤ 122 then ch - 32 else ch

/-- WhiteSpace and LineTerminator code units: the class `\s`. -/
def isSpace (ch : Nat) : Bool :=
  ch = 9 || ch = 10 || ch = 11 || ch = 12 || ch = 13 || ch = 32 || ch = 160 ||
  ch = 0x1680 || (0x2000 ≤ ch && ch ≤ 0x200A) || ch = 0x2028 || ch = 0x2029 ||
  ch = 0x202F || ch = 0x205F || ch = 0x3000 || ch = 0xFEFF

namespace Regex

/-- Whether the pattern matches the empty string. -/
def nullable : Regex → Bool
  | nothing => false
  | empty => true
  | char _ => false
  | space => false
  | seq a b => nullable a && nullable b
  | alt a b => nullable a || nullable b
  | star _ => true

/-- The pattern for what may follow after the code unit `ch` has been consumed. -/
def deriv : Regex → Nat → Regex
  | nothing, _ => nothing
  | empty, _ => nothing
  | char c, ch => if canonicalize ch = canonicalize c then empty else nothing
  | space, ch => if isSpace ch then empty else nothing
  | seq a b, ch =>
      if nullable a then alt (seq (deriv a ch) b) (deriv b ch) else seq (deriv a ch) b
  | alt a b, ch => alt (deriv a ch) (deriv b ch)
  | star a, ch => seq (deriv a ch) (star a)

/-- Whether the pattern matches some initial segment of the input. -/
def matchHere : Regex → JSString → Bool
  | r, [] => nullable r
  | r, ch :: rest => nullable r || matchHere (deriv r ch) rest

/-- The method `RegExp.prototype.test` for a pattern without `g` or `y`: is there a
match starting at some index of the input? -/
def test (r : Regex) : JSString → Bool
  | [] => matchHere r []
  | ch :: rest => matchHere r (ch :: rest) || test r rest

end Regex

open Regex in
/-- The array `BLOCKED` of the source, in order. -/
def BLOCKED : List Regex :=
  [ -- /child\s+sexual/i
    seq (word (lit "child")) (seq (plus space) (word (lit "sexual"))),
    -- /how\s+to\s+make\s+(?:a\s+)?bomb/i
    seq (word (lit "how")) (seq (plus space) (seq (word (lit "to")) (seq (plus space)
      (seq (word (lit "make")) (seq (plus space)
        (seq (opt (seq (char 97) (plus space))) (word (lit "bomb")))))))),
    -- /make\s+explosives?/i
    seq (word (lit "make")) (seq (plus space)
      (seq (word (lit "explosive")) (opt (char 115)))),
    -- /hire\s+hitman/i
    seq (word (lit "hire")) (seq (plus space) (word (lit "hitman"))),
    -- /write\s+malware/i
    seq (word (lit "write")) (seq (plus space) (word (lit "malware"))),
    -- /exploit\s+this\s+vulnerability/i
    seq (word (lit "exploit")) (seq (plus space) (seq (word (lit "this"))
      (seq (plus space) (word (lit "vulnerability"))))),
    -- /bypass\s+(?:auth|2fa|drm|paywall)/i
    seq (word (lit "bypass")) (seq (plus space)
      (alt (word (lit "auth")) (alt (word (lit "2fa"))
        (alt (word (lit "drm")) (word (lit "paywall")))))),
    -- /credit\s*card\s*number\s*generator/i
    seq (word (lit "credit")) (seq (star space) (seq (word (lit "card"))
      (seq (star space) (seq (word (lit "number"))
        (seq (star space) (word (lit "generator"))))))),
    -- /make\s+fentanyl|illicit\s+drug\s+manufacture/i
    alt (seq (word (lit "make")) (seq (plus space) (word (lit "fentanyl"))))
      (seq (word (lit "illicit")) (seq (plus space) (seq (word (lit "drug"))
        (seq (plus space) (word (lit "manufacture")))))),
    -- /doxx?ing/i
    seq (word (lit "dox")) (seq (opt (char 120)) (word (lit "ing"))) ]

/-- The test `BLOCKED.some(rx => rx.test(s))` on a string. -/
def blockedMatch (s : JSString) : Bool := BLOCKED.any (fun rx => rx.test s)

/-! ## JavaScript values as they come out of `express.json()` -/

/-- A thrown JavaScript error, by its message text. -/
abbrev JSError := JSString

/-- A value of a parsed request body.  A Number is held by its decimal rendering
(the result of ToString), which is all the program observes of it. -/
inductive JSValue where
  | undefined : JSValue
  | null : JSValue
  | bool (b : Bool) : JSValue
  | number (text : JSString) : JSValue
  | string (s : JSString) : JSValue
  | array (items : List JSValue) : JSValue
  | object (props : List (JSString × JSValue)) : JSValue

namespace JSValue

/-- ToBoolean: `undefined`, `null`, `false`, `0`, `-0`, `NaN` and `''` are falsy. -/
def truthy : JSValue → Bool
  | undefined => false
  | null => false
  | bool b => b
  | number text => !(text = lit "0" || text = lit "NaN")
  | string s => !s.isEmpty
  | array _ => true
  | object _ => true

/-- The expression `v || ''`. -/
def orEmpty (v : JSValue) : JSValue := if v.truthy then v else string []

/-- Own property of a parsed object, by key. -/
def lookup (key : JSString) : List (JSString × JSValue) → Option JSValue
  | [] => none
  | (k, v) :: rest => if k = key then some v else lookup key rest

/-- Property read `v.key` for the keys the program reads (`messages`, `role`,
`content`): none of them exists on a built-in prototype, so only an own property
of an object yields a value. -/
def getProp (v : JSValue) (key : JSString) : JSValue :=
  match v with
  | object props => (lookup key props).getD undefined
  | _ => undefined

/-- The test `Array.isArray(v)`. -/
def isArray : JSValue → Bool
  | array _ => true
  | _ => false

/-- Whether the value is `undefined` or `null`. -/
def isNullish : JSValue → Bool
  | undefined => true
  | null => true
  | _ => false

mutual
/-- ToString.  A parsed object that has an own `toString` property (never callable)
has no primitive value: a TypeError is thrown. -/
def toStringJS : JSValue → Except JSError JSString
  | undefined => .ok (lit "undefined")
  | null => .ok (lit "null")
  | bool b => .ok (if b then lit "true" else lit "false")
  | number text => .ok text
  | string s => .ok s
  | array items => joinItems [] items
  | object props =>
      match lookup (lit "toString") props with
      | some _ => .error (lit "TypeError: Cannot convert object to primitive value")
      | none => .ok (lit "[object Object]")
/-- The method `Array.prototype.join`: every element is converted with ToString,
`undefined` and `null` giving the empty string; `sep` goes in front of the element
(empty for the first one, `,` afterwards). -/
def joinItems (sep : JSString) : List JSValue → Except JSError JSString
  | [] => .ok []
  | x :: rest =>
      match (if x.isNullish then .ok [] else toStringJS x) with
      | .error e => .error e
      | .ok a =>
          match joinItems (lit ",") rest with
          | .error e => .error e
          | .ok b => .ok (sep ++ a ++ b)
end

end JSValue

/-- The function `looksUnsafe` of the source: `BLOCKED.some(rx => rx.test(s || ''))`.
The method `test` converts its argument with ToString, which may throw. -/
def looksUnsafe (s : JSValue) : Except JSError Bool :=
  match s.orEmpty.toStringJS with
  | .error e => .error e
  | .ok text => .ok (blockedMatch text)

/-! ## The response object (Express on top of the Node HTTP response) -/

/-- What the program makes observable on `res`. -/
structure Response where
  /-- the status code; 200 unless `res.status` changes it -/
  statusCode : Nat
  /-- headers set so far, latest first -/
  headers : List (JSString × JSString)
  /-- whether the header block has gone out to the client -/
  headersSent : Bool
  /-- the value sent with `res.json`, if any -/
  body : Option JSValue
  /-- the arguments of `res.write`, in call order -/
  writes : List JSString
  /-- how many times the response has been ended (`res.end`, or the end inside `res.json`) -/
  ended : Nat

namespace Response

/-- The response as a handler receives it. -/
def fresh : Response :=
  { statusCode := 200, headers := [], headersSent := false, body := none, writes := [], ended := 0 }

/-- The call `res.status(code)`. -/
def status (r : Response) (code : Nat) : Response := { r with statusCode := code }

/-- The call `res.setHeader(name, value)`: Node throws once the headers have been sent. -/
def setHeader (r : Response) (name value : JSString) : Except JSError Response :=
  if r.headersSent then .error (lit "ERR_HTTP_HEADERS_SENT")
  else .ok { r with headers := (name, value) :: r.headers }

/-- The call `res.json(v)`: Express sets the Content-Type header (through `setHeader`,
in `res.json` when none is set and again in `res.send` to fix the charset), then sends
the serialised value and ends the response.  Once the headers have been sent, that
`setHeader` throws, and nothing is sent or ended. -/
def json (r : Response) (v : JSValue) : Except JSError Response :=
  if r.headersSent then .error (lit "ERR_HTTP_HEADERS_SENT")
  else .ok { r with headersSent := true, body := some v, ended := r.ended + 1 }

/-- The call `res.write(text)`: the first write sends the headers. -/
def write (r : Response) (text : JSString) : Response :=
  { r with headersSent := true, writes := r.writes ++ [text] }

/-- The call `res.end()`. -/
def end_ (r : Response) : Response :=
  { r with headersSent := true, ended := r.ended + 1 }

end Response

/-! ## `TextDecoder('utf-8')` used with `{ stream: true }` -/

/-- State of the streaming UTF-8 decoder (WHATWG Encoding). -/
structure Utf8Decoder where
  codePoint : Nat
  bytesSeen : Nat
  bytesNeeded : Nat
  lower : Nat
  upper : Nat
  /-- whether the first code point of the stream has already been looked at -/
  bomSeen : Bool

namespace Utf8Decoder

/-- The state of `new TextDecoder('utf-8')`. -/
def init : Utf8Decoder :=
  { codePoint := 0, bytesSeen := 0, bytesNeeded := 0, lower := 0x80, upper := 0xBF,
    bomSeen := false }

/-- Forget a pending sequence. -/
def reset (d : Utf8Decoder) : Utf8Decoder :=
  { d with codePoint := 0, bytesSeen := 0, bytesNeeded := 0, lower := 0x80, upper := 0xBF }

/-- A byte arriving while no sequence is pending.  Masks are written as remainders:
`b & 0x1F` is `b % 32`, and so on. -/
def lead (d : Utf8Decoder) (b : Nat) : Utf8Decoder × List Nat :=
  if b ≤ 0x7F then (d, [b])
  else if 0xC2 ≤ b ∧ b ≤ 0xDF then
    ({ d with bytesNeeded := 1, codePoint := b % 32 }, [])
  else if 0xE0 ≤ b ∧ b ≤ 0xEF then
    ({ d with lower := if b = 0xE0 then 0xA0 else d.lower,
              upper := if b = 0xED then 0x9F else d.upper,
              bytesNeeded := 2, codePoint := b % 16 }, [])
  else if 0xF0 ≤ b ∧ b ≤ 0xF4 then
    ({ d with lower := if b = 0xF0 then 0x90 else d.lower,
              upper := if b = 0xF4 then 0x8F else d.upper,
              bytesNeeded := 3, codePoint := b % 8 }, [])
  else (d, [0xFFFD])

/-- One byte through the decoder: the new state and the code points emitted.  A byte
that cannot continue the pending sequence yields U+FFFD and is then handled afresh. -/
def step (d : Utf8Decoder) (b : Nat) : Utf8Decoder × List Nat :=
  if d.bytesNeeded = 0 then lead d b
  else if b < d.lower ∨ d.upper < b then
    let r := lead d.reset b
    (r.1, 0xFFFD :: r.2)
  else
    let cp := d.codePoint * 64 + b % 64
    if d.bytesSeen + 1 = d.bytesNeeded then (d.reset, [cp])
    else ({ d with lower := 0x80, upper := 0xBF, codePoint := cp,
                   bytesSeen := d.bytesSeen + 1 }, [])

/-- All bytes of a chunk through the decoder. -/
def run (d : Utf8Decoder) : List Nat → Utf8Decoder × List Nat
  | [] => (d, [])
  | b :: rest =>
      let r1 := step d b
      let r2 := run r1.1 rest
      (r2.1, r1.2 ++ r2.2)

/-- The first code point of the stream is dropped when it is the byte-order mark. -/
def stripBOM (d : Utf8Decoder) (cps : List Nat) : Utf8Decoder × List Nat :=
  match cps with
  | [] => (d, [])
  | cp :: rest =>
      if d.bomSeen then (d, cp :: rest)
      else ({ d with bomSeen := true }, if cp = 0xFEFF then rest else cp :: rest)

/-- UTF-16 code units of a code point. -/
def utf16 (cp : Nat) : List Nat :=
  if cp < 0x10000 then [cp]
  else [0xD800 + (cp - 0x10000) / 1024, 0xDC00 + (cp - 0x10000) % 1024]

/-- The call `decoder.decode(value, { stream: true })`: the text of the sequences
completed by this chunk; an unfinished sequence stays pending in the state. -/
def decode (d : Utf8Decoder) (value : List Nat) : Utf8Decoder × JSString :=
  let r := run d value
  let s := stripBOM r.1 r.2
  (s.1, (s.2.map utf16).flatten)

end Utf8Decoder

/-- How the body stream of the upstream response finishes. -/
inductive StreamEnd where
  /-- `reader.read()` reports `done` -/
  | done : StreamEnd
  /-- `reader.read()` rejects -/
  | failed (err : JSError) : StreamEnd

/-- The response object that `fetch` resolves to. -/
structure Upstream where
  /-- `upstream.ok` -/
  ok : Bool
  /-- whether `upstream.body` is truthy -/
  hasBody : Bool
  /-- what `upstream.text()` settles to -/
  text : Except JSError JSString
  /-- the chunks that `reader.read()` delivers, in order -/
  chunks : List (List Nat)
  /-- what follows the last chunk -/
  ending : StreamEnd

/-- What the call of `fetch` settles to. -/
inductive FetchResult where
  /-- the promise rejects: no response was obtained -/
  | failed (err : JSError) : FetchResult
  /-- the promise resolves -/
  | response (u : Upstream) : FetchResult

/-- A call of `fetch`: the Authorization header and the `messages` of the payload. -/
structure FetchCall where
  authorization : JSString
  messages : List JSValue

/-- The variables of `process.env` that the handler reads. -/
structure Env where
  OPENAI_API_KEY : Option JSString

/-- What a request handler has done when its promise settles. -/
structure Outcome where
  /-- the response object at that moment -/
  res : Response
  /-- the calls of `fetch`, in order -/
  fetched : List FetchCall
  /-- the arguments of `console.error` -/
  logged : List JSError
  /-- the error the handler's promise rejects with, if it does -/
  uncaught : Option JSError

/-! ## `POST /api/chat` -/

/-- The constant `SYSTEM_PROMPT`. -/
def SYSTEM_PROMPT : JSString :=
  lit ("\nYou are a helpful, honest assistant for a personal website.\n" ++
    "- Be accurate and clear; ask for missing context if needed.\n" ++
    "- Be creative when asked to brainstorm or write.\n" ++
    "- Refuse requests that could meaningfully enable illegal, dangerous, or privacy-invasive actions.\n" ++
    "- If refusing, explain briefly and suggest a safer alternative.\n")

/-- The object `{ error: msg }`. -/
def errorBody (msg : JSString) : JSValue := .object [(lit "error", .string msg)]

/-- The test `m?.role === 'user'`. -/
def isUserMessage (m : JSValue) : Bool :=
  match m.getProp (lit "role") with
  | .string s => s = lit "user"
  | _ => false

/-- The expression
`[...messages].reverse().find(m => m?.role === 'user')?.content || ''`. -/
def lastUser (messages : List JSValue) : JSValue :=
  (match messages.reverse.find? isUserMessage with
   | some m => m.getProp (lit "content")
   | none => .undefined).orEmpty

/-- The call of `fetch` that the handler makes for a credential and a conversation. -/
def fetchCallOf (key : JSString) (messages : List JSValue) : FetchCall :=
  { authorization := lit "Bearer " ++ key,
    messages := .object [(lit "role", .string (lit "system")),
                         (lit "content", .string SYSTEM_PROMPT)] :: messages }

/-- The destructuring `const { messages } = req.body || {}`. -/
def messagesOf (body : JSValue) : JSValue :=
  (if body.truthy then body else JSValue.object []).getProp (lit "messages")

/-- The state at the end of the `try` block, with the error thrown out of it, if any. -/
structure TryResult where
  res : Response
  fetched : List FetchCall
  thrown : Option JSError

/-- The statement `return res.status(code).json(v)`. -/
def respond (res : Response) (code : Nat) (v : JSValue) (fetched : List FetchCall) : TryResult :=
  match (res.status code).json v with
  | .ok r => { res := r, fetched := fetched, thrown := none }
  | .error e => { res := res.status code, fetched := fetched, thrown := some e }

/-- The loop `while (true)` over `reader.read()`: each chunk is decoded and written;
`done` leaves the loop, a failed read throws. -/
def copyLoop (decoder : Utf8Decoder) (res : Response) :
    List (List Nat) → StreamEnd → Response × Option JSError
  | [], .done => (res, none)
  | [], .failed err => (res, some err)
  | value :: rest, ending =>
      let r := decoder.decode value
      copyLoop r.1 (res.write r.2) rest ending

/-- The three `res.setHeader` calls before the loop. -/
def streamHeaders (res : Response) : Except JSError Response :=
  match res.setHeader (lit "Content-Type") (lit "text/event-stream; charset=utf-8") with
  | .error e => .error e
  | .ok r1 =>
      match r1.setHeader (lit "Cache-Control") (lit "no-cache, no-transform") with
      | .error e => .error e
      | .ok r2 => r2.setHeader (lit "Connection") (lit "keep-alive")

/-- The `try` block of the handler, on the parsed body `req.body`, with `upstream`
being what `fetch` settles to if it is called. -/
def chatTry (env : Env) (body : JSValue) (upstream : FetchResult) : TryResult :=
  let res := Response.fresh
  match messagesOf body with
  | .array messages =>
      match looksUnsafe (lastUser messages) with
      | .error e => { res := res, fetched := [], thrown := some e }
      | .ok true =>
          respond res 400 (errorBody (lit
            "This request appears unsafe. Please rephrase to a lawful, non-harmful question.")) []
      | .ok false =>
          match env.OPENAI_API_KEY with
          | none => respond res 500 (errorBody (lit "Server missing OPENAI_API_KEY.")) []
          | some [] => respond res 500 (errorBody (lit "Server missing OPENAI_API_KEY.")) []
          | some (k :: ks) =>
              let call := fetchCallOf (k :: ks) messages
              match upstream with
              | .failed err => { res := res, fetched := [call], thrown := some err }
              | .response u =>
                  if !u.ok || !u.hasBody then
                    match u.text with
                    | .error e => { res := res, fetched := [call], thrown := some e }
                    | .ok detail =>
                        respond res 502 (.object [(lit "error", .string (lit "Upstream error")),
                          (lit "detail", .string detail)]) [call]
                  else
                    match streamHeaders res with
                    | .error e => { res := res, fetched := [call], thrown := some e }
                    | .ok r =>
                        match copyLoop Utf8Decoder.init r u.chunks u.ending with
                        | (r1, some err) => { res := r1, fetched := [call], thrown := some err }
                        | (r1, none) => { res := r1.end_, fetched := [call], thrown := none }
  | _ => respond res 400 (errorBody (lit "Expected \x7b messages: [...] \x7d")) []

/-- The handler of `app.post('/api/chat', ...)`: the `try` block, and on a throw the
`catch` block, whose `res.status(500).json(...)` is not itself guarded. -/
def chat (env : Env) (body : JSValue) (upstream : FetchResult) : Outcome :=
  let t := chatTry env body upstream
  match t.thrown with
  | none => { res := t.res, fetched := t.fetched, logged := [], uncaught := none }
  | some err =>
      match (t.res.status 500).json (errorBody (lit "Unexpected server error.")) with
      | .ok r => { res := r, fetched := t.fetched, logged := [err], uncaught := none }
      | .error e =>
          { res := t.res.status 500, fetched := t.fetched, logged := [err], uncaught := some e }

/-- The handler of `app.get('/health', ...)`. -/
def health : Outcome :=
  match Response.fresh.json (.object [(lit "ok", .bool true)]) with
  | .ok r => { res := r, fetched := [], logged := [], uncaught := none }
  | .error e => { res := Response.fresh, fetched := [], logged := [], uncaught := some e }

/-! ## The rate limiter and the middleware in front of the routes -/

/-- Counter state of one key: points consumed and the start of the window (ms). -/
structure RateWindow where
  consumed : Nat
  start : Nat

/-- The counters of the limiter, by key. -/
abbrev RateStore := JSString → Option RateWindow

/-- Options of `new RateLimiterMemory({ points, duration })`, the duration in seconds. -/
structure RateLimiterMemory where
  points : Nat
  duration : Nat

/-- The constant `limiter` of the source. -/
def limiter : RateLimiterMemory := { points := 60, duration := 60 }

/-- Modelled from the spec: the method `consume` of `RateLimiterMemory` (package
`rate-limiter-flexible`, not under src/), after section 4.1: without an active window
for the key a window is created and one point granted; inside an active window the
call succeeds while the points consumed stay within the budget; a call that would
exceed the budget fails and leaves the window as it is; a window is over once
`duration` has elapsed since its start.  The Boolean tells whether the promise resolves. -/
def RateLimiterMemory.consume (l : RateLimiterMemory) (store : RateStore) (key : JSString)
    (now : Nat) : RateStore × Bool :=
  let fresh : RateStore × Bool :=
    (fun k => if k = key then some { consumed := 1, start := now } else store k, decide (1 ≤ l.points))
  match store key with
  | none => fresh
  | some w =>
      if now < w.start + l.duration * 1000 then
        if w.consumed + 1 ≤ l.points then
          (fun k => if k = key then some { w with consumed := w.consumed + 1 } else store k, true)
        else (store, false)
      else fresh

/-- The route that the Express router selects for a request. -/
inductive Route where
  | health : Route
  | chat : Route
  | other : Route
  deriving DecidableEq

/-- A request as it reaches the rate-limit middleware (the body already parsed). -/
structure Request where
  route : Route
  /-- `req.headers['x-forwarded-for']` -/
  forwardedFor : Option JSString
  /-- `req.ip` -/
  ip : Option JSString
  /-- `req.body` -/
  body : JSValue

/-- The expression `req.headers['x-forwarded-for'] || req.ip || 'global'`. -/
def clientKey (req : Request) : JSString :=
  match req.forwardedFor with
  | some (c :: cs) => c :: cs
  | _ =>
      match req.ip with
      | some (c :: cs) => c :: cs
      | _ => lit "global"

/-- The rate-limit middleware at time `now`: `none` when `next()` is called, the
response when the request is turned away. -/
def rateLimit (store : RateStore) (now : Nat) (req : Request) : RateStore × Option Response :=
  match limiter.consume store (clientKey req) now with
  | (store1, true) => (store1, none)
  | (store1, false) =>
      match (Response.fresh.status 429).json (errorBody (lit "Too many requests. Please slow down.")) with
      | .ok r => (store1, some r)
      | .error _ => (store1, some (Response.fresh.status 429))

/-- What the application did with one request. -/
structure Served where
  /-- whether the rate-limit middleware called `next()` -/
  admitted : Bool
  /-- the response and the effects -/
  outcome : Outcome

/-- One request through the middleware and, when admitted, the route handler. -/
def app (env : Env) (store : RateStore) (now : Nat) (req : Request) (upstream : FetchResult) :
    RateStore × Served :=
  match rateLimit store now req with
  | (store1, some r) =>
      (store1, { admitted := false,
                 outcome := { res := r, fetched := [], logged := [], uncaught := none } })
  | (store1, none) =>
      (store1, { admitted := true,
                 outcome :=
                   match req.route with
                   | .health => health
                   | .chat => chat env req.body upstream
                   | .other =>
                       { res := Response.fresh.status 404, fetched := [], logged := [],
                         uncaught := none } })

/-- A sequence of requests, each with its arrival time and with what `fetch` would
settle to, served one after the other; every result is paired with the client key. -/
def serveAll (env : Env) : RateStore → List (Nat × Request × FetchResult) → List (JSString × Served)
  | _, [] => []
  | store, (now, req, upstream) :: rest =>
      let r := app env store now req upstream
      (clientKey req, r.2) :: serveAll env r.1 rest

/-- The results for the requests of one client key, in order. -/
def servedFor (key : JSString) (log : List (JSString × Served)) : List Served :=
  (log.filter (fun e => decide (e.1 = key))).map (fun e => e.2)

/-- The response sent by `res.status(code).json(v)` on a fresh response object. -/
def jsonResponse (code : Nat) (v : JSValue) : Response :=
  { statusCode := code, headers := [], headersSent := true, body := some v, writes := [],
    ended := 1 }

/-- The other case of an ASCII letter; any other code unit is left as it is. -/
def swapCase (ch : Nat) : Nat :=
  if 65 ≤ ch ∧ ch ≤ 90 then ch + 32 else if 97 ≤ ch ∧ ch ≤ 122 then ch - 32 else ch

/-- The string `t` is got from `s` by changing the case of some of its ASCII letters. -/
def caseVariant : JSString → JSString → Bool
  | [], [] => true
  | a :: s, b :: t => (decide (b = a) || decide (b = swapCase a)) && caseVariant s t
  | _, _ => false

/-- The texts that `decoder.decode(value, { stream: true })` returns for the chunks of
a stream, one per chunk, the decoder state passing from each chunk to the next. -/
def decodeAll (decoder : Utf8Decoder) : List (List Nat) → List JSString
  | [] => []
  | value :: rest => (decoder.decode value).2 :: decodeAll (decoder.decode value).1 rest

/-- What a failed read leaves for the `catch` block. -/
def StreamEnd.thrown : StreamEnd → Option JSError
  | .done => none
  | .failed err => some err

/-! ## Sample inputs -/

/-- An environment with a credential. -/
def envWithKey : Env := { OPENAI_API_KEY := some (lit "sk-test") }

/-- The body `{ messages: [{ role: 'user', content: 'hello' }] }`. -/
def helloBody : JSValue :=
  .object [(lit "messages",
    .array [.object [(lit "role", .string (lit "user")), (lit "content", .string (lit "hello"))]])]

/-- A `POST /api/chat` request from the address 203.0.113.7. -/
def chatRequest (body : JSValue) : Request :=
  { route := .chat, forwardedFor := none, ip := some (lit "203.0.113.7"), body := body }

/-- A `GET /health` request from the address 203.0.113.7. -/
def healthRequest : Request :=
  { route := .health, forwardedFor := none, ip := some (lit "203.0.113.7"), body := .undefined }

/-- A limiter that has not seen any key. -/
def emptyStore : RateStore := fun _ => none

/-- An upstream that answers 200 with the single chunk `data: hi\n\n` and then ends. -/
def oneChunkUpstream : FetchResult :=
  .response { ok := true, hasBody := true, text := .ok [], chunks := [lit "data: hi

"],
              ending := .done }

/-- What the application returns for a request that the rate limiter turns away. -/
def turnedAway : Served :=
  { admitted := false,
    outcome :=
      { res := jsonResponse 429 (errorBody (lit "Too many requests. Please slow down.")),
        fetched := [], logged := [], uncaught := none } }

/-! ## Lemmas on the handler -/

theorem rateLimit_eq (store : RateStore) (now : Nat) (req : Request) :
    rateLimit store now req =
      ((limiter.consume store (clientKey req) now).1,
       if (limiter.consume store (clientKey req) now).2 then none
       else some (jsonResponse 429 (errorBody (lit "Too many requests. Please slow down.")))) := by
  unfold rateLimit
  rcases limiter.consume store (clientKey req) now with ⟨s1, b⟩
  cases b <;> rfl

theorem app_outcome_of_rejected (env : Env) (store : RateStore) (now : Nat) (req : Request)
    (upstream : FetchResult) (h : (app env store now req upstream).2.admitted = false) :
    (app env store now req upstream).2.outcome =
      { res := jsonResponse 429 (errorBody (lit "Too many requests. Please slow down.")),
        fetched := [], logged := [], uncaught := none } := by
  unfold app at h ⊢
  rw [rateLimit_eq] at h ⊢
  cases hb : (limiter.consume store (clientKey req) now).2
  · simp [hb]
  · simp [hb] at h

theorem app_outcome_of_admitted (env : Env) (store : RateStore) (now : Nat) (req : Request)
    (upstream : FetchResult) (h : (app env store now req upstream).2.admitted = true) :
    (app env store now req upstream).2.outcome =
      match req.route with
      | .health => health
      | .chat => chat env req.body upstream
      | .other =>
          { res := Response.fresh.status 404, fetched := [], logged := [], uncaught := none } := by
  unfold app at h ⊢
  split
  · rename_i heq
    rw [heq] at h
    simp at h
  · rfl

theorem chat_of_not_array (env : Env) (body : JSValue) (upstream : FetchResult)
    (h : (messagesOf body).isArray = false) :
    chat env body upstream =
      { res := jsonResponse 400 (errorBody (lit "Expected \x7b messages: [...] \x7d")),
        fetched := [], logged := [], uncaught := none } := by
  unfold chat chatTry
  cases hm : messagesOf body <;> first | rfl | (rw [hm] at h; simp [JSValue.isArray] at h)

theorem chat_of_missing_key (env : Env) (body : JSValue) (upstream : FetchResult)
    (messages : List JSValue) (hm : messagesOf body = .array messages)
    (hsafe : looksUnsafe (lastUser messages) = .ok false)
    (hkey : env.OPENAI_API_KEY = none ∨ env.OPENAI_API_KEY = some []) :
    chat env body upstream =
      { res := jsonResponse 500 (errorBody (lit "Server missing OPENAI_API_KEY.")),
        fetched := [], logged := [], uncaught := none } := by
  unfold chat chatTry
  rcases hkey with hk | hk <;> simp only [hm, hsafe, hk] <;> rfl

theorem chat_of_upstream_status (env : Env) (body : JSValue) (u : Upstream)
    (messages : List JSValue) (key detail : JSString) (hm : messagesOf body = .array messages)
    (hsafe : looksUnsafe (lastUser messages) = .ok false)
    (hkey : env.OPENAI_API_KEY = some key) (hne : key ≠ [])
    (hok : u.ok = false) (htext : u.text = .ok detail) :
    chat env body (.response u) =
      { res := jsonResponse 502 (.object [(lit "error", .string (lit "Upstream error")),
          (lit "detail", .string detail)]),
        fetched := [fetchCallOf key messages], logged := [], uncaught := none } := by
  unfold chat chatTry
  cases key with
  | nil => exact absurd rfl hne
  | cons k ks => simp only [hm, hsafe, hkey, hok, htext] ; rfl

theorem chat_of_fetch_failure (env : Env) (body : JSValue) (err : JSError)
    (messages : List JSValue) (key : JSString) (hm : messagesOf body = .array messages)
    (hsafe : looksUnsafe (lastUser messages) = .ok false)
    (hkey : env.OPENAI_API_KEY = some key) (hne : key ≠ []) :
    chat env body (.failed err) =
      { res := jsonResponse 500 (errorBody (lit "Unexpected server error.")),
        fetched := [fetchCallOf key messages], logged := [err], uncaught := none } := by
  unfold chat chatTry
  cases key with
  | nil => exact absurd rfl hne
  | cons k ks => simp only [hm, hsafe, hkey] ; rfl

theorem copyLoop_eq (decoder : Utf8Decoder) (res : Response) (chunks : List (List Nat))
    (ending : StreamEnd) :
    copyLoop decoder res chunks ending =
      ({ res with headersSent := res.headersSent || !chunks.isEmpty,
                  writes := res.writes ++ decodeAll decoder chunks }, ending.thrown) := by
  induction chunks generalizing decoder res with
  | nil => cases ending <;> cases res <;> simp [copyLoop, decodeAll, StreamEnd.thrown]
  | cons value rest ih =>
      cases ending <;>
        simp [copyLoop, decodeAll, ih, Response.write, StreamEnd.thrown]

theorem streamHeaders_fresh :
    streamHeaders Response.fresh =
      .ok { Response.fresh with
            headers := [(lit "Connection", lit "keep-alive"),
                        (lit "Cache-Control", lit "no-cache, no-transform"),
                        (lit "Content-Type", lit "text/event-stream; charset=utf-8")] } := rfl

theorem canonicalize_swapCase (a : Nat) : canonicalize (swapCase a) = canonicalize a := by
  unfold canonicalize swapCase
  split_ifs <;> omega

theorem isSpace_of_letter_range (a : Nat) (h : 65 ≤ a ∧ a ≤ 122) : isSpace a = false := by
  simp only [isSpace, Bool.or_eq_false_iff, Bool.and_eq_false_iff, decide_eq_false_iff_not]
  omega

theorem isSpace_swapCase (a : Nat) : isSpace (swapCase a) = isSpace a := by
  unfold swapCase
  split_ifs with h1 h2
  · rw [isSpace_of_letter_range a (by omega), isSpace_of_letter_range (a + 32) (by omega)]
  · rw [isSpace_of_letter_range a (by omega), isSpace_of_letter_range (a - 32) (by omega)]
  · rfl

theorem Regex.deriv_congr (r : Regex) (a b : Nat) (hc : canonicalize b = canonicalize a)
    (hs : isSpace b = isSpace a) : r.deriv b = r.deriv a := by
  induction r with
  | nothing => rfl
  | empty => rfl
  | char c => simp [Regex.deriv, hc]
  | space => simp [Regex.deriv, hs]
  | seq x y ihx ihy => simp [Regex.deriv, ihx, ihy]
  | alt x y ihx ihy => simp [Regex.deriv, ihx, ihy]
  | star x ih => simp [Regex.deriv, ih]

theorem Regex.deriv_of_variant (r : Regex) (a b : Nat)
    (h : (decide (b = a) || decide (b = swapCase a)) = true) : r.deriv b = r.deriv a := by
  simp only [Bool.or_eq_true, decide_eq_true_eq] at h
  rcases h with h | h
  · rw [h]
  · rw [h]
    exact Regex.deriv_congr r a (swapCase a) (canonicalize_swapCase a) (isSpace_swapCase a)

theorem Regex.matchHere_of_variant (r : Regex) (s t : JSString) (h : caseVariant s t = true) :
    r.matchHere t = r.matchHere s := by
  induction s generalizing r t with
  | nil =>
      cases t with
      | nil => rfl
      | cons b t => simp [caseVariant] at h
  | cons a s ih =>
      cases t with
      | nil => simp [caseVariant] at h
      | cons b t =>
          simp only [caseVariant, Bool.and_eq_true] at h
          simp only [Regex.matchHere]
          rw [Regex.deriv_of_variant r a b h.1, ih _ t h.2]

theorem Regex.test_of_variant (r : Regex) (s t : JSString) (h : caseVariant s t = true) :
    r.test t = r.test s := by
  induction s generalizing t with
  | nil =>
      cases t with
      | nil => rfl
      | cons b t => simp [caseVariant] at h
  | cons a s ih =>
      cases t with
      | nil => simp [caseVariant] at h
      | cons b t =>
          have h2 := h
          simp only [caseVariant, Bool.and_eq_true] at h2
          simp only [Regex.test]
          rw [Regex.matchHere_of_variant r (a :: s) (b :: t) h, ih t h2.2]

theorem blockedMatch_of_variant (s t : JSString) (h : caseVariant s t = true) :
    blockedMatch t = blockedMatch s := by
  unfold blockedMatch
  congr 1
  funext rx
  exact Regex.test_of_variant rx s t h

theorem looksUnsafe_string (s : JSString) : looksUnsafe (.string s) = .ok (blockedMatch s) := by
  cases s <;> rfl

theorem Regex.matchHere_append (r : Regex) (m post : JSString) (h : r.matchHere m = true) :
    r.matchHere (m ++ post) = true := by
  induction m generalizing r with
  | nil =>
      simp only [Regex.matchHere] at h
      cases post <;> simp [Regex.matchHere, h]
  | cons a m ih =>
      simp only [Regex.matchHere, Bool.or_eq_true] at h
      simp only [List.cons_append, Regex.matchHere, Bool.or_eq_true]
      rcases h with h | h
      · exact Or.inl h
      · exact Or.inr (ih _ h)

theorem Regex.test_of_matchHere (r : Regex) (s : JSString) (h : r.matchHere s = true) :
    r.test s = true := by
  cases s <;> simp [Regex.test, h]

theorem Regex.test_append_left (r : Regex) (pre s : JSString) (h : r.test s = true) :
    r.test (pre ++ s) = true := by
  induction pre with
  | nil => exact h
  | cons a pre ih => simp [Regex.test, ih]

theorem Regex.test_append_right (r : Regex) (s post : JSString) (h : r.test s = true) :
    r.test (s ++ post) = true := by
  induction s with
  | nil =>
      simp only [Regex.test] at h
      exact Regex.test_of_matchHere r _ (Regex.matchHere_append r [] post h)
  | cons a s ih =>
      simp only [Regex.test, Bool.or_eq_true] at h
      simp only [List.cons_append, Regex.test, Bool.or_eq_true]
      rcases h with h | h
      · exact Or.inl (Regex.matchHere_append r (a :: s) post h)
      · exact Or.inr (ih h)

theorem blockedMatch_of_contains (pre s post : JSString) (h : blockedMatch s = true) :
    blockedMatch (pre ++ s ++ post) = true := by
  unfold blockedMatch at h ⊢
  rw [List.any_eq_true] at h ⊢
  obtain ⟨rx, hmem, hrx⟩ := h
  exact ⟨rx, hmem, Regex.test_append_right rx _ post (Regex.test_append_left rx pre s hrx)⟩

/-! ## Lemmas on the rate limiter -/

theorem app_store (env : Env) (store : RateStore) (now : Nat) (req : Request)
    (upstream : FetchResult) :
    (app env store now req upstream).1 = (limiter.consume store (clientKey req) now).1 := by
  unfold app
  rw [rateLimit_eq]
  cases (limiter.consume store (clientKey req) now).2 <;> rfl

theorem app_admitted (env : Env) (store : RateStore) (now : Nat) (req : Request)
    (upstream : FetchResult) :
    (app env store now req upstream).2.admitted = (limiter.consume store (clientKey req) now).2 := by
  unfold app
  rw [rateLimit_eq]
  cases (limiter.consume store (clientKey req) now).2 <;> rfl

theorem consume_other (store : RateStore) (key k : JSString) (now : Nat) (h : k ≠ key) :
    (limiter.consume store key now).1 k = store k := by
  unfold RateLimiterMemory.consume
  cases store key with
  | none => simp [h]
  | some w =>
      dsimp only
      split_ifs <;> simp [h]

theorem consume_idle (store : RateStore) (key : JSString) (now : Nat)
    (h : ∀ w, store key = some w → w.start + 60000 ≤ now) :
    (limiter.consume store key now).1 key = some { consumed := 1, start := now } ∧
    (limiter.consume store key now).2 = true := by
  unfold RateLimiterMemory.consume
  cases hs : store key with
  | none => simp [limiter]
  | some w =>
      have := h w hs
      have hn : ¬ now < w.start + 60000 := by omega
      simp [hn, limiter]

theorem consume_active (store : RateStore) (key : JSString) (now c t0 : Nat)
    (hs : store key = some { consumed := c, start := t0 }) (hnow : now < t0 + 60000) :
    (limiter.consume store key now).2 = decide (c < 60) ∧
    (limiter.consume store key now).1 key =
      some { consumed := if c < 60 then c + 1 else c, start := t0 } := by
  unfold RateLimiterMemory.consume
  have hn : now < t0 + limiter.duration * 1000 := by simp only [limiter]; omega
  by_cases hc : c < 60
  · have hp : c + 1 ≤ limiter.points := by simp only [limiter]; omega
    simp [hs, hn, hp, hc]
  · have hp : ¬ c + 1 ≤ limiter.points := by simp only [limiter]; omega
    simp [hs, hn, hp, hc]

theorem servedFor_cons_same (key : JSString) (served : Served) (log : List (JSString × Served)) :
    servedFor key ((key, served) :: log) = served :: servedFor key log := by
  simp [servedFor]

theorem servedFor_cons_other (key k : JSString) (served : Served)
    (log : List (JSString × Served)) (h : k ≠ key) :
    servedFor key ((k, served) :: log) = servedFor key log := by
  simp [servedFor, h]

theorem servedFor_active (env : Env) (key : JSString) (t0 : Nat)
    (reqs : List (Nat × Request × FetchResult)) :
    ∀ (store : RateStore) (c : Nat), store key = some { consumed := c, start := t0 } →
      (∀ x ∈ reqs, clientKey x.2.1 = key → x.1 < t0 + 60000) →
      ∀ j s, (servedFor key (serveAll env store reqs))[j]? = some s →
        s.admitted = decide (c + j < 60) := by
  induction reqs with
  | nil => intro store c _ _ j s h; simp [serveAll, servedFor] at h
  | cons x rest ih =>
      intro store c hs hwin j s h
      obtain ⟨now, req, upstream⟩ := x
      have hrest : ∀ y ∈ rest, clientKey y.2.1 = key → y.1 < t0 + 60000 :=
        fun y hy => hwin y (List.mem_cons_of_mem _ hy)
      simp only [serveAll] at h
      by_cases hk : clientKey req = key
      · have hnow : now < t0 + 60000 := hwin (now, req, upstream) (List.mem_cons_self _ _) hk
        have hact := consume_active store key now c t0 hs hnow
        rw [hk, servedFor_cons_same] at h
        cases j with
        | zero =>
            simp only [List.getElem?_cons_zero, Option.some.injEq] at h
            rw [← h, app_admitted, hk, hact.1]
            simp
        | succ j =>
            simp only [List.getElem?_cons_succ] at h
            have hstore := hact.2
            rw [← hk] at hstore
            rw [← app_store env store now req upstream, hk] at hstore
            have := ih _ _ hstore hrest j s h
            rw [this]
            by_cases hc : c < 60
            · simp only [hc, if_true]
              congr 1
              apply propext
              constructor <;> intro <;> omega
            · simp only [hc, if_false]
              have h1 : ¬ c + j < 60 := by omega
              have h2 : ¬ c + (j + 1) < 60 := by omega
              simp [h1, h2]
      · rw [servedFor_cons_other key _ _ _ hk] at h
        have hstore : (app env store now req upstream).1 key = some { consumed := c, start := t0 } := by
          rw [app_store, consume_other store (clientKey req) key now (fun e => hk e.symm)]
          exact hs
        exact ih _ _ hstore hrest j s h

theorem servedFor_idle (env : Env) (key : JSString) (t0 : Nat)
    (reqs : List (Nat × Request × FetchResult)) :
    ∀ (store : RateStore), (∀ w, store key = some w → w.start + 60000 ≤ t0) →
      (∀ x ∈ reqs, clientKey x.2.1 = key → t0 ≤ x.1 ∧ x.1 < t0 + 60000) →
      ∀ j s, (servedFor key (serveAll env store reqs))[j]? = some s →
        s.admitted = decide (j < 60) := by
  induction reqs with
  | nil => intro store _ _ j s h; simp [serveAll, servedFor] at h
  | cons x rest ih =>
      intro store hidle hwin j s h
      obtain ⟨now, req, upstream⟩ := x
      have hrest : ∀ y ∈ rest, clientKey y.2.1 = key → t0 ≤ y.1 ∧ y.1 < t0 + 60000 :=
        fun y hy => hwin y (List.mem_cons_of_mem _ hy)
      simp only [serveAll] at h
      by_cases hk : clientKey req = key
      · have hnow := hwin (now, req, upstream) (List.mem_cons_self _ _) hk
        have hfresh := consume_idle store key now (fun w hw => by have := hidle w hw; omega)
        rw [hk, servedFor_cons_same] at h
        cases j with
        | zero =>
            simp only [List.getElem?_cons_zero, Option.some.injEq] at h
            rw [← h, app_admitted, hk, hfresh.2]
            simp
        | succ j =>
            simp only [List.getElem?_cons_succ] at h
            have hstore := hfresh.1
            rw [← hk] at hstore
            rw [← app_store env store now req upstream, hk] at hstore
            have := servedFor_active env key now rest _ 1 hstore
              (fun y hy hyk => by have := (hrest y hy hyk).2; omega) j s h
            rw [this]
            congr 1
            apply propext
            constructor <;> intro <;> omega
      · rw [servedFor_cons_other key _ _ _ hk] at h
        have hstore : (app env store now req upstream).1 key = store key := by
          rw [app_store, consume_other store (clientKey req) key now (fun e => hk e.symm)]
        exact ih _ (fun w hw => hidle w (hstore ▸ hw)) hrest j s h

theorem serveAll_rejected (env : Env) (reqs : List (Nat × Request × FetchResult)) :
    ∀ (store : RateStore), ∀ e ∈ serveAll env store reqs, e.2.admitted = false →
      e.2.outcome =
        { res := jsonResponse 429 (errorBody (lit "Too many requests. Please slow down.")),
          fetched := [], logged := [], uncaught := none } := by
  induction reqs with
  | nil => intro store e he; simp [serveAll] at he
  | cons x rest ih =>
      intro store e he hadm
      obtain ⟨now, req, upstream⟩ := x
      simp only [serveAll, List.mem_cons] at he
      rcases he with he | he
      · subst he
        exact app_outcome_of_rejected env store now req upstream hadm
      · exact ih _ e he hadm

/-! ## Lemmas on the decoder -/

theorem chat_of_stream_failure (env : Env) (body : JSValue) (u : Upstream)
    (messages : List JSValue) (key : JSString) (err : JSError) (first : List Nat)
    (rest : List (List Nat)) (hm : messagesOf body = .array messages)
    (hsafe : looksUnsafe (lastUser messages) = .ok false)
    (hkey : env.OPENAI_API_KEY = some key) (hne : key ≠ [])
    (hok : u.ok = true) (hbody : u.hasBody = true) (hchunks : u.chunks = first :: rest)
    (hend : u.ending = .failed err) :
    (chat env body (.response u)).res.ended = 0 ∧
    (chat env body (.response u)).res.writes = decodeAll Utf8Decoder.init (first :: rest) ∧
    (chat env body (.response u)).logged = [err] ∧
    (chat env body (.response u)).uncaught = some (lit "ERR_HTTP_HEADERS_SENT") := by
  unfold chat chatTry
  cases key with
  | nil => exact absurd rfl hne
  | cons k ks =>
      simp only [hm, hsafe, hkey, hok, hbody, streamHeaders_fresh, copyLoop_eq, hend, hchunks,
        StreamEnd.thrown]
      simp [Response.json, Response.status, Response.fresh]

/-- C10: a `POST /api/chat` request admitted by the rate limiter whose body is absent,
has no `messages` field, or has a `messages` field that is not an array, is answered
with status 400 and the body `{ error: "Expected { messages: [...] }" }`, whatever the
environment holds, and `fetch` is not called. -/
theorem malformed_body_rejected (env : Env) (store : RateStore) (now : Nat) (req : Request)
    (upstream : FetchResult) (hroute : req.route = .chat)
    (hadm : (app env store now req upstream).2.admitted = true)
    (hshape : req.body = .undefined ∨
      (∃ props, req.body = .object props ∧ JSValue.lookup (lit "messages") props = none) ∨
      (messagesOf req.body).isArray = false) :
    (app env store now req upstream).2.outcome =
      { res := jsonResponse 400 (errorBody (lit "Expected \x7b messages: [...] \x7d")),
        fetched := [], logged := [], uncaught := none } := by
  rw [app_outcome_of_admitted env store now req upstream hadm, hroute]
  apply chat_of_not_array
  rcases hshape with h | ⟨props, h, hl⟩ | h
  · rw [h]; rfl
  · rw [h]; simp [messagesOf, JSValue.truthy, JSValue.getProp, hl, JSValue.isArray]
  · exact h

theorem malformed_body_rejected_witness :
    (chatRequest (.object [(lit "messages", .string (lit "hi"))])).route = .chat ∧
    (app envWithKey emptyStore 0 (chatRequest (.object [(lit "messages", .string (lit "hi"))]))
      oneChunkUpstream).2.admitted = true ∧
    (app envWithKey emptyStore 0 (chatRequest (.object [(lit "messages", .string (lit "hi"))]))
      oneChunkUpstream).2.outcome =
      { res := jsonResponse 400 (errorBody (lit "Expected \x7b messages: [...] \x7d")),
        fetched := [], logged := [], uncaught := none } :=
  ⟨rfl, by decide,
    malformed_body_rejected envWithKey emptyStore 0
      (chatRequest (.object [(lit "messages", .string (lit "hi"))])) oneChunkUpstream rfl
      (by decide) (Or.inr (Or.inr (by decide)))⟩

/-- C8: an admitted `POST /api/chat` request with an array `messages` whose latest user
content does not look unsafe, served while `OPENAI_API_KEY` is unset or empty, is
answered with status 500 and the body `{ error: "Server missing OPENAI_API_KEY." }`,
and `fetch` is not called. -/
theorem missing_credential (env : Env) (store : RateStore) (now : Nat) (req : Request)
    (upstream : FetchResult) (messages : List JSValue) (hroute : req.route = .chat)
    (hadm : (app env store now req upstream).2.admitted = true)
    (hm : messagesOf req.body = .array messages)
    (hsafe : looksUnsafe (lastUser messages) = .ok false)
    (hkey : env.OPENAI_API_KEY = none ∨ env.OPENAI_API_KEY = some []) :
    (app env store now req upstream).2.outcome =
      { res := jsonResponse 500 (errorBody (lit "Server missing OPENAI_API_KEY.")),
        fetched := [], logged := [], uncaught := none } := by
  rw [app_outcome_of_admitted env store now req upstream hadm, hroute]
  exact chat_of_missing_key env req.body upstream messages hm hsafe hkey

theorem missing_credential_witness :
    (app { OPENAI_API_KEY := some [] } emptyStore 0 (chatRequest helloBody)
      oneChunkUpstream).2.admitted = true ∧
    (app { OPENAI_API_KEY := some [] } emptyStore 0 (chatRequest helloBody)
      oneChunkUpstream).2.outcome =
      { res := jsonResponse 500 (errorBody (lit "Server missing OPENAI_API_KEY.")),
        fetched := [], logged := [], uncaught := none } :=
  ⟨by decide,
    missing_credential { OPENAI_API_KEY := some [] } emptyStore 0 (chatRequest helloBody)
      oneChunkUpstream _ rfl (by decide) rfl rfl (Or.inr rfl)⟩

/-- C9: for an admitted request with an array `messages`, safe latest user content and
a credential, when the upstream response has a non-success status and its text is
`detail`, the handler answers with status 502 and the body
`{ error: "Upstream error", detail }`; no header is set and nothing is written. -/
theorem upstream_status_is_502 (env : Env) (store : RateStore) (now : Nat) (req : Request)
    (u : Upstream) (messages : List JSValue) (key detail : JSString)
    (hroute : req.route = .chat)
    (hadm : (app env store now req (.response u)).2.admitted = true)
    (hm : messagesOf req.body = .array messages)
    (hsafe : looksUnsafe (lastUser messages) = .ok false)
    (hkey : env.OPENAI_API_KEY = some key) (hne : key ≠ [])
    (hok : u.ok = false) (htext : u.text = .ok detail) :
    (app env store now req (.response u)).2.outcome =
      { res := { statusCode := 502, headers := [], headersSent := true,
                 body := some (.object [(lit "error", .string (lit "Upstream error")),
                                        (lit "detail", .string detail)]),
                 writes := [], ended := 1 },
        fetched := [fetchCallOf key messages], logged := [], uncaught := none } := by
  rw [app_outcome_of_admitted env store now req _ hadm, hroute]
  exact chat_of_upstream_status env req.body u messages key detail hm hsafe hkey hne hok htext

theorem upstream_status_is_502_witness :
    (app envWithKey emptyStore 0 (chatRequest helloBody)
      (.response { ok := false, hasBody := true, text := .ok (lit "quota exceeded"),
                   chunks := [], ending := .done })).2.outcome.res.statusCode = 502 :=
  congrArg (fun o => o.res.statusCode)
    (upstream_status_is_502 envWithKey emptyStore 0 (chatRequest helloBody)
      { ok := false, hasBody := true, text := .ok (lit "quota exceeded"), chunks := [],
        ending := .done }
      _ (lit "sk-test") (lit "quota exceeded") rfl (by decide) rfl rfl rfl (by decide) rfl rfl)

/-- C4, as stated, fails: with a well-formed safe request and a credential, when `fetch`
rejects with `connect ECONNREFUSED` the answer is 500 with the generic body, not 502
with the upstream error text. -/
theorem fetch_failure_not_502 :
    (app envWithKey emptyStore 0 (chatRequest helloBody)
      (.failed (lit "connect ECONNREFUSED"))).2.admitted = true ∧
    (app envWithKey emptyStore 0 (chatRequest helloBody)
      (.failed (lit "connect ECONNREFUSED"))).2.outcome.res.statusCode = 500 ∧
    (app envWithKey emptyStore 0 (chatRequest helloBody)
      (.failed (lit "connect ECONNREFUSED"))).2.outcome.res.body =
        some (errorBody (lit "Unexpected server error.")) ∧
    ¬ ((app envWithKey emptyStore 0 (chatRequest helloBody)
      (.failed (lit "connect ECONNREFUSED"))).2.outcome.res.statusCode = 502) :=
  ⟨by decide, by decide, rfl, by decide⟩

/-- C4 (amended): for an admitted request with an array `messages`, safe latest user
content and a credential, when the call of `fetch` rejects, the handler logs the error
and answers with status 500 and the body `{ error: "Unexpected server error." }`; no
header is set, nothing is written to the stream, and the error text is not forwarded. -/
theorem fetch_failure_is_500 (env : Env) (store : RateStore) (now : Nat) (req : Request)
    (err : JSError) (messages : List JSValue) (key : JSString)
    (hroute : req.route = .chat)
    (hadm : (app env store now req (.failed err)).2.admitted = true)
    (hm : messagesOf req.body = .array messages)
    (hsafe : looksUnsafe (lastUser messages) = .ok false)
    (hkey : env.OPENAI_API_KEY = some key) (hne : key ≠ []) :
    (app env store now req (.failed err)).2.outcome =
      { res := { statusCode := 500, headers := [], headersSent := true,
                 body := some (errorBody (lit "Unexpected server error.")),
                 writes := [], ended := 1 },
        fetched := [fetchCallOf key messages], logged := [err], uncaught := none } := by
  rw [app_outcome_of_admitted env store now req _ hadm, hroute]
  exact chat_of_fetch_failure env req.body err messages key hm hsafe hkey hne

theorem fetch_failure_is_500_witness :
    (app envWithKey emptyStore 0 (chatRequest helloBody)
      (.failed (lit "connect ECONNREFUSED"))).2.outcome.logged = [lit "connect ECONNREFUSED"] :=
  congrArg (fun o => o.logged)
    (fetch_failure_is_500 envWithKey emptyStore 0 (chatRequest helloBody)
      (lit "connect ECONNREFUSED") _ (lit "sk-test") rfl (by decide) rfl rfl rfl (by decide))

set_option maxRecDepth 100000 in
/-- C7, as stated, fails: of 61 `GET /health` requests that one address sends within
one window, the first is answered 200 and the 61st is answered 429 by the rate-limit
middleware, which sits in front of the route. -/
theorem health_can_be_rate_limited :
    ((servedFor (clientKey healthRequest)
        (serveAll envWithKey emptyStore
          (List.replicate 61 (1000, healthRequest, oneChunkUpstream))))[0]?).map
      (fun s => s.outcome.res.statusCode) = some 200 ∧
    ((servedFor (clientKey healthRequest)
        (serveAll envWithKey emptyStore
          (List.replicate 61 (1000, healthRequest, oneChunkUpstream))))[60]?).map
      (fun s => s.outcome.res.statusCode) = some 429 := by
  constructor <;> decide

/-- C7 (amended): in every state of the limiter and of the environment, a
`GET /health` request that the rate-limit middleware admits is answered with status 200
and the body `{ ok: true }`; one that the middleware turns away is answered with
status 429 and the rate-limit body. -/
theorem health_when_admitted (env : Env) (store : RateStore) (now : Nat) (req : Request)
    (upstream : FetchResult) (hroute : req.route = .health) :
    ((app env store now req upstream).2.admitted = true →
      (app env store now req upstream).2.outcome =
        { res := jsonResponse 200 (.object [(lit "ok", .bool true)]),
          fetched := [], logged := [], uncaught := none }) ∧
    ((app env store now req upstream).2.admitted = false →
      (app env store now req upstream).2.outcome =
        { res := jsonResponse 429 (errorBody (lit "Too many requests. Please slow down.")),
          fetched := [], logged := [], uncaught := none }) := by
  constructor
  · intro hadm
    rw [app_outcome_of_admitted env store now req upstream hadm, hroute]
    rfl
  · intro hadm
    exact app_outcome_of_rejected env store now req upstream hadm

theorem health_when_admitted_witness :
    (app envWithKey emptyStore 0 healthRequest oneChunkUpstream).2.outcome =
      { res := jsonResponse 200 (.object [(lit "ok", .bool true)]),
        fetched := [], logged := [], uncaught := none } :=
  (health_when_admitted envWithKey emptyStore 0 healthRequest oneChunkUpstream rfl).1 (by decide)

/-- C2: if `looksUnsafe` reports a text unsafe, it reports unsafe every text got from
it by changing the case of any of its ASCII letters; in particular every casing of a
text that contains `how to make a bomb` is reported unsafe. -/
theorem safety_filter_ignores_case (s t : JSString) (hcase : caseVariant s t = true) :
    (looksUnsafe (.string s) = .ok true → looksUnsafe (.string t) = .ok true) ∧
    (∀ pre post, s = pre ++ lit "how to make a bomb" ++ post →
      looksUnsafe (.string t) = .ok true) := by
  have hst : looksUnsafe (.string t) = looksUnsafe (.string s) := by
    rw [looksUnsafe_string, looksUnsafe_string, blockedMatch_of_variant s t hcase]
  refine ⟨fun h => hst.trans h, fun pre post hs => ?_⟩
  rw [hst, looksUnsafe_string, hs,
    blockedMatch_of_contains pre (lit "how to make a bomb") post (by decide)]

theorem safety_filter_ignores_case_witness :
    caseVariant (lit "Tell me how to make a bomb.") (lit "tELL ME HoW TO MAKE A BoMB.") = true ∧
    looksUnsafe (.string (lit "tELL ME HoW TO MAKE A BoMB.")) = .ok true :=
  ⟨by decide,
    (safety_filter_ignores_case (lit "Tell me how to make a bomb.")
      (lit "tELL ME HoW TO MAKE A BoMB.") (by decide)).2 (lit "Tell me ") (lit ".") (by decide)⟩

/-- C1: take any client key that has no running window at time `t0`, and any sequence
of requests (requests of other keys may be interleaved) in which those of this key all
arrive within the 60 seconds from `t0`.  Each of the first 60 requests of the key is
admitted by the middleware (`next()` is called); the 61st, and any later one, is
answered with status 429 and the body `{ error: "Too many requests. Please slow down." }`
and reaches no route handler. -/
theorem rate_limit_budget (env : Env) (store : RateStore) (key : JSString) (t0 : Nat)
    (reqs : List (Nat × Request × FetchResult))
    (hidle : ∀ w, store key = some w → w.start + 60000 ≤ t0)
    (hwin : ∀ x ∈ reqs, clientKey x.2.1 = key → t0 ≤ x.1 ∧ x.1 < t0 + 60000)
    (j : Nat) (s : Served) (hj : (servedFor key (serveAll env store reqs))[j]? = some s) :
    (j < 60 → s.admitted = true) ∧
    (60 ≤ j → s.admitted = false ∧
      s.outcome =
        { res := jsonResponse 429 (errorBody (lit "Too many requests. Please slow down.")),
          fetched := [], logged := [], uncaught := none }) := by
  have hadm := servedFor_idle env key t0 reqs store hidle hwin j s hj
  refine ⟨fun h => by simp [hadm, h], fun h => ?_⟩
  have hfalse : s.admitted = false := by
    rw [hadm]
    simp only [decide_eq_false_iff_not]
    omega
  refine ⟨hfalse, ?_⟩
  have hmem : s ∈ servedFor key (serveAll env store reqs) := List.getElem?_mem hj
  simp only [servedFor, List.mem_map, List.mem_filter] at hmem
  obtain ⟨e, ⟨he, _⟩, hes⟩ := hmem
  rw [← hes] at hfalse ⊢
  exact serveAll_rejected env reqs store e he hfalse

set_option maxRecDepth 100000 in
theorem rate_limit_budget_witness :
    (servedFor (lit "203.0.113.7")
        (serveAll envWithKey emptyStore
          (List.replicate 61 (1000, chatRequest helloBody, oneChunkUpstream))))[60]? =
      some turnedAway ∧
    turnedAway.admitted = false ∧
    turnedAway.outcome =
      { res := jsonResponse 429 (errorBody (lit "Too many requests. Please slow down.")),
        fetched := [], logged := [], uncaught := none } :=
  ⟨rfl,
    (rate_limit_budget envWithKey emptyStore (lit "203.0.113.7") 1000
      (List.replicate 61 (1000, chatRequest helloBody, oneChunkUpstream))
      (fun w hw => by simp [emptyStore] at hw)
      (fun x hx _ => by
        simp only [List.mem_replicate] at hx
        rw [hx.2]
        exact ⟨Nat.le_refl _, by decide⟩)
      60 turnedAway rfl).2 (Nat.le_refl 60)⟩

end Server
